import Mathlib

/-!
Verification of the AIRISS real-time WebSocket connection manager.

The definitions below are a shallow embedding of the three in-repo
implementations of the connection manager:

* `RobustWebSocketService` (src/services/websocket_robust.ts) — modelled by
  the `RState` operations `connect`, `onopenR`, `onmessageR`, `onerrorR`,
  `oncloseR`, `scheduleReconnect`, `fireReconnectTimer`, `disconnectR`,
  `sendR`.
* `WebSocketService` (src/services/websocket_fixed.ts) — modelled where the
  claims need it by `buildMessageFixed`, `sendF`, `handleMessageF`.
* `EnhancedWebSocketService` and `SimpleEventEmitter` (src/types/index.ts) —
  modelled by `onmessageE`, `handleMessageE`, `runCallbacks`, `emitE`.

Timers are modelled explicitly: a state carries the list of live pending
reconnect timeouts (`activeTimers`) together with the stored handle
(`reconnectTimer`), so that `clearTimeout`/`setTimeout` semantics — including
stale handles after a timer has fired — are faithfully represented.
Millisecond delays are exact here (all values are small dyadic rationals),
so they are modelled as rationals.
-/

/-- The four readyState values of a browser WebSocket. -/
inductive ReadyState
  | CONNECTING
  | OPEN
  | CLOSING
  | CLOSED
deriving DecidableEq, Repr

/-- A JSON-ish field value (enough structure for the claims at hand). -/
inductive JVal
  | jstr : String → JVal
  | jnum : Int → JVal
deriving DecidableEq, Repr

/-- A JSON object, as an association list of fields (insertion ordered,
duplicate-free in practice, looked up by first match as JS does). -/
abbrev Obj := List (String × JVal)

/-- Field lookup on a JSON object (first match, like JS property access). -/
def lookupField : Obj → String → Option JVal
  | [], _ => none
  | (k1, v1) :: rest, k => if k1 = k then some v1 else lookupField rest k

/-- `setField o k v` is the JS object-literal override `{...o, k: v}`:
the value at `k` is replaced in place if present, appended otherwise. -/
def setField : Obj → String → JVal → Obj
  | [], k, v => [(k, v)]
  | (k1, v1) :: rest, k, v =>
      if k1 = k then (k, v) :: rest else (k1, v1) :: setField rest k v

/-- The underlying socket handle: its target URL, its readyState, and the
frames written to it (kept structured rather than JSON-stringified). -/
structure Sock where
  url : String
  readyState : ReadyState
  sentFrames : List Obj
deriving DecidableEq, Repr

/-- A parsed inbound frame, mirroring the `WebSocketMessage` interface:
a `type` discriminator plus optional `data`, `error`, `message`,
`timestamp` fields. -/
structure WSMessage where
  type : String
  data : Option JVal
  error : Option String
  message : Option String
  timestamp : Option String
deriving DecidableEq, Repr

/-- The argument attached to an emitted event (the services emit the whole
message, its `data` field, an error string, close info, or nothing). -/
inductive EmitArg
  | unit
  | dataOf : Option JVal → EmitArg
  | strOf : Option String → EmitArg
  | msgOf : WSMessage → EmitArg
  | errText : String → EmitArg
  | closeInfo : Nat → EmitArg
deriving DecidableEq, Repr

/-- Observable effects of one operation: events emitted (in order), number
of `new WebSocket(...)` constructions, close codes requested on the socket,
and frames written to the socket. -/
structure Trace where
  emitted : List (String × EmitArg)
  socketsCreated : Nat
  closeCalls : List Nat
  framesSent : List Obj
deriving DecidableEq, Repr

def Trace.empty : Trace := ⟨[], 0, [], []⟩

def Trace.ofEmit (es : List (String × EmitArg)) : Trace := ⟨es, 0, [], []⟩

def Trace.append (a b : Trace) : Trace :=
  ⟨a.emitted ++ b.emitted, a.socketsCreated + b.socketsCreated,
    a.closeCalls ++ b.closeCalls, a.framesSent ++ b.framesSent⟩

instance : Append Trace := ⟨Trace.append⟩

/-- The mutable state of `RobustWebSocketService`.  `activeTimers` holds the
live pending reconnect timeouts (id, delay) — at most one in any reachable
state — while `reconnectTimer` is the stored (possibly stale) handle, exactly
as the `this.reconnectTimer` field behaves around `setTimeout`/`clearTimeout`. -/
structure RState where
  ws : Option Sock
  reconnectInterval : ℚ
  maxReconnectInterval : ℚ
  reconnectDecay : ℚ
  reconnectAttempts : Nat
  maxReconnectAttempts : Nat
  reconnectTimer : Option Nat
  activeTimers : List (Nat × ℚ)
  nextTimerId : Nat
  pingTimer : Bool
  url : String
  clientId : String
  isConnecting : Bool
  shouldReconnect : Bool
  channels : List String
deriving DecidableEq, Repr

/-- `this.ws?.readyState === WebSocket.OPEN`. -/
def wsOpen (s : RState) : Bool :=
  match s.ws with
  | some w => w.readyState = ReadyState.OPEN
  | none => false

/-- The connection target `<base>/<clientId>?channels=<comma-joined list>`. -/
def connectUrl (s : RState) (channels : List String) : String :=
  s.url ++ "/" ++ s.clientId ++ "?channels=" ++ String.intercalate "," channels

/-- `clearReconnectTimer`: `clearTimeout` on the stored handle (removing that
pending timeout, a no-op on a stale or absent handle) and reset the field. -/
def clearReconnectTimer (s : RState) : RState :=
  match s.reconnectTimer with
  | some id =>
      { s with activeTimers := s.activeTimers.filter (fun t => t.1 ≠ id),
               reconnectTimer := none }
  | none => s

/-- The delay `Math.min(reconnectInterval * reconnectDecay ** reconnectAttempts,
maxReconnectInterval)` computed inside `scheduleReconnect`. -/
def currentIntervalOf (s : RState) : ℚ :=
  min (s.reconnectInterval * s.reconnectDecay ^ s.reconnectAttempts)
    s.maxReconnectInterval

/-- `RobustWebSocketService.scheduleReconnect`: bail out with a
`maxReconnectAttemptsReached` event once the attempt budget is spent,
otherwise clear any pending timer and set a fresh one for the backoff delay. -/
def scheduleReconnect (s : RState) : RState × Trace :=
  if s.reconnectAttempts ≥ s.maxReconnectAttempts then
    (s, Trace.ofEmit [("maxReconnectAttemptsReached", EmitArg.unit)])
  else
    let s1 := clearReconnectTimer s
    let d := currentIntervalOf s1
    ({ s1 with activeTimers := s1.activeTimers ++ [(s1.nextTimerId, d)],
               reconnectTimer := some s1.nextTimerId,
               nextTimerId := s1.nextTimerId + 1 },
     Trace.empty)

/-- `RobustWebSocketService.connect`: a guarded no-op while already
connecting or open; otherwise record the channels, enable reconnection,
and construct a fresh socket towards the computed URL. -/
def connect (channels : List String) (s : RState) : RState × Trace :=
  if s.isConnecting then (s, Trace.empty)
  else if wsOpen s then (s, Trace.empty)
  else
    let s1 := { s with isConnecting := true, channels := channels,
                       shouldReconnect := true }
    ({ s1 with ws := some ⟨connectUrl s channels, ReadyState.CONNECTING, []⟩ },
     { Trace.empty with socketsCreated := 1 })

/-- `{...data, timestamp, client_id}` as built in
`RobustWebSocketService.send`. -/
def buildMessageRobust (payload : Obj) (now clientId : String) : Obj :=
  setField (setField payload "timestamp" (JVal.jstr now)) "client_id"
    (JVal.jstr clientId)

/-- `{...data, timestamp}` as built in `WebSocketService.send`
(websocket_fixed.ts) — no client identity is attached there. -/
def buildMessageFixed (payload : Obj) (now : String) : Obj :=
  setField payload "timestamp" (JVal.jstr now)

/-- The not-open branch of `RobustWebSocketService.send`: log, and when
reconnection is enabled and no attempt is in flight, call `connect` with the
stored channels; always report failure. -/
def sendRFailPath (s : RState) : (RState × Trace) × Bool :=
  if s.shouldReconnect && !s.isConnecting then (connect s.channels s, false)
  else ((s, Trace.empty), false)

/-- `RobustWebSocketService.send`: when the socket is open, write the
payload augmented with a timestamp and the client identity and report
success; otherwise take the failure path. -/
def sendR (payload : Obj) (now : String) (s : RState) :
    (RState × Trace) × Bool :=
  match s.ws with
  | some w =>
      if w.readyState = ReadyState.OPEN then
        let msg := buildMessageRobust payload now s.clientId
        ((({ s with ws := some { w with sentFrames := w.sentFrames ++ [msg] } }),
          { Trace.empty with framesSent := [msg] }), true)
      else sendRFailPath s
  | none => sendRFailPath s

/-- The initial ping `{type: 'ping', message: 'Connection established'}`
sent from the open handler. -/
def openingPing : Obj :=
  [("type", JVal.jstr "ping"), ("message", JVal.jstr "Connection established")]

/-- The `onopen` handler of `RobustWebSocketService` (the socket has just
transitioned to OPEN): reset the attempt counter and the backoff interval,
emit `connected`, clear any pending reconnect timer, start the heartbeat,
and send the connection-established ping. -/
def onopenR (now : String) (s : RState) : RState × Trace :=
  let s1 := { s with ws := s.ws.map (fun (w : Sock) => { w with readyState := ReadyState.OPEN }) }
  let s2 := { s1 with isConnecting := false, reconnectAttempts := 0,
                      reconnectInterval := 3000 }
  let t1 := Trace.ofEmit [("connected", EmitArg.unit)]
  let s3 := clearReconnectTimer s2
  let s4 := { s3 with pingTimer := true }
  let r := sendR openingPing now s4
  (r.1.1, t1 ++ r.1.2)

/-- JS truthiness-based `a || b` on optional strings (`data.error ||
data.message`): an absent or empty left operand falls through. -/
def jsOr (a b : Option String) : Option String :=
  match a with
  | some x => if x.isEmpty then b else some x
  | none => b

/-- `RobustWebSocketService.handleMessage`: the dispatch table from the
`type` discriminator to the emitted event, with unknown types forwarded to
the catch-all `message` event. -/
def handleMessageR (m : WSMessage) : List (String × EmitArg) :=
  if m.type = "progress" then [("progress", EmitArg.dataOf m.data)]
  else if m.type = "result" then [("result", EmitArg.dataOf m.data)]
  else if m.type = "complete" then [("complete", EmitArg.dataOf m.data)]
  else if m.type = "error" then [("serverError", EmitArg.strOf (jsOr m.error m.message))]
  else if m.type = "alert" then [("alert", EmitArg.dataOf m.data)]
  else if m.type = "notification" then [("notification", EmitArg.dataOf m.data)]
  else if m.type = "connection_established" ∨ m.type = "ready" then
    [("ready", EmitArg.msgOf m)]
  else if m.type = "pong" then []
  else [("message", EmitArg.msgOf m)]

/-- The `onmessage` handler of `RobustWebSocketService`: a frame that parses
is dispatched through `handleMessageR`; a parse failure is caught and only
logged (no event is emitted).  The parse outcome of `JSON.parse` is the
handler's input. -/
def onmessageR (parsed : Option WSMessage) (s : RState) : RState × Trace :=
  match parsed with
  | some m => (s, Trace.ofEmit (handleMessageR m))
  | none => (s, Trace.empty)

/-- The `onerror` handler of `RobustWebSocketService`: emit an `error`
event and, when reconnection is enabled, schedule a retry. -/
def onerrorR (s : RState) : RState × Trace :=
  let s1 := { s with isConnecting := false }
  let t1 := Trace.ofEmit [("error", EmitArg.unit)]
  if s1.shouldReconnect then
    let r := scheduleReconnect s1
    (r.1, t1 ++ r.2)
  else (s1, t1)

/-- The state mutations done at the top of the `onclose` handler: the
socket has transitioned to CLOSED, `isConnecting` is cleared and the
heartbeat stopped. -/
def closeState (s : RState) : RState :=
  { s with
    ws := s.ws.map (fun (w : Sock) => { w with readyState := ReadyState.CLOSED }),
    isConnecting := false, pingTimer := false }

/-- The `onclose` handler of `RobustWebSocketService` (the socket has just
transitioned to CLOSED): stop the heartbeat, emit `disconnected`, and when
reconnection is enabled and the close was not the normal code 1000,
schedule a retry. -/
def oncloseR (code : Nat) (s : RState) : RState × Trace :=
  let s2 := closeState s
  let t1 := Trace.ofEmit [("disconnected", EmitArg.closeInfo code)]
  if s2.shouldReconnect && code ≠ 1000 then
    let r := scheduleReconnect s2
    (r.1, t1 ++ r.2)
  else (s2, t1)

/-- The body of the `setTimeout` callback registered by `scheduleReconnect`,
fired by the event loop for a still-pending timeout `id`: consume the
timeout and, if reconnection is still enabled, bump the attempt counter and
call `connect` with the stored channels.  A cleared or already-fired id is
inert. -/
def fireReconnectTimer (id : Nat) (s : RState) : RState × Trace :=
  if s.activeTimers.any (fun t => t.1 = id) then
    let s1 := { s with activeTimers := s.activeTimers.filter (fun t => t.1 ≠ id) }
    if s1.shouldReconnect then
      let s2 := { s1 with reconnectAttempts := s1.reconnectAttempts + 1 }
      connect s2.channels s2
    else (s1, Trace.empty)
  else (s, Trace.empty)

/-- `RobustWebSocketService.disconnect`: disable reconnection, cancel the
reconnect and heartbeat timers, request a normal (code 1000) closure when a
socket exists and drop the handle, and reset the bookkeeping flags. -/
def disconnectR (s : RState) : RState × Trace :=
  let s1 := { s with shouldReconnect := false }
  let s2 := clearReconnectTimer s1
  let s3 := { s2 with pingTimer := false }
  let r : RState × Trace :=
    match s3.ws with
    | some _ => ({ s3 with ws := none }, { Trace.empty with closeCalls := [1000] })
    | none => (s3, Trace.empty)
  ({ r.1 with isConnecting := false, reconnectAttempts := 0 }, r.2)

/-- The mutable state of the `WebSocketService` of websocket_fixed.ts.  The
defaulted fields carry the class-initializer values (`reconnectInterval =
5000`, no pending timer); `activeTimers`/`reconnectTimer` model pending
timeouts exactly as in `RState`. -/
structure FState where
  ws : Option Sock
  reconnectInterval : ℚ := 5000
  reconnectTimer : Option Nat := none
  activeTimers : List (Nat × ℚ) := []
  nextTimerId : Nat := 0
  url : String
  clientId : String
  isConnecting : Bool
  maxRetryAttempts : Nat
  retryCount : Nat
deriving DecidableEq, Repr

/-- `WebSocketService.send` (websocket_fixed.ts): when the socket is open,
write the payload augmented with a timestamp only (no client identity) and
report success; otherwise log and report failure.  The second component of
the result pair is the list of frames written by this call. -/
def sendF (payload : Obj) (now : String) (s : FState) :
    (FState × List Obj) × Bool :=
  match s.ws with
  | some w =>
      if w.readyState = ReadyState.OPEN then
        let msg := buildMessageFixed payload now
        ((({ s with ws := some { w with sentFrames := w.sentFrames ++ [msg] } }),
          [msg]), true)
      else ((s, []), false)
  | none => ((s, []), false)

/-- `WebSocketService.handleMessage` (websocket_fixed.ts): the dispatch
table from the `type` discriminator to the emitted event.  The default
branch only logs a warning — nothing is emitted for an unknown type. -/
def handleMessageF (m : WSMessage) : List (String × EmitArg) :=
  if m.type = "progress" then [("progress", EmitArg.dataOf m.data)]
  else if m.type = "result" then [("result", EmitArg.dataOf m.data)]
  else if m.type = "complete" then [("complete", EmitArg.dataOf m.data)]
  else if m.type = "error" then [("error", EmitArg.strOf m.error)]
  else if m.type = "alert" then [("alert", EmitArg.dataOf m.data)]
  else if m.type = "notification" then [("notification", EmitArg.dataOf m.data)]
  else if m.type = "connection_established" ∨ m.type = "pong" then []
  else []

/-- JS truthiness of a field value: empty strings and zero are falsy. -/
def JVal.truthy : JVal → Bool
  | JVal.jstr s => !s.isEmpty
  | JVal.jnum n => n != 0

/-- `data.data || data` as used by the enhanced service: fall back to the
whole message when the `data` field is absent or falsy. -/
def dataOrSelf (m : WSMessage) : EmitArg :=
  match m.data with
  | some d => if d.truthy then EmitArg.dataOf (some d) else EmitArg.msgOf m
  | none => EmitArg.msgOf m

/-- `EnhancedWebSocketService.handleMessage` (src/types/index.ts): the
dispatch table from the `type` discriminator to the emitted event, with
unknown types forwarded to the catch-all `message` event. -/
def handleMessageE (m : WSMessage) : List (String × EmitArg) :=
  if m.type = "ready" then [("ready", EmitArg.msgOf m)]
  else if m.type = "connection" then [("connected", EmitArg.msgOf m)]
  else if m.type = "progress" then [("progress", EmitArg.dataOf m.data)]
  else if m.type = "result" then [("result", EmitArg.dataOf m.data)]
  else if m.type = "complete" then [("complete", dataOrSelf m)]
  else if m.type = "error" then [("serverError", EmitArg.strOf (jsOr m.error m.message))]
  else if m.type = "alert" then [("alert", dataOrSelf m)]
  else if m.type = "notification" then [("notification", dataOrSelf m)]
  else if m.type = "pong" then []
  else [("message", EmitArg.msgOf m)]

/-- The `onmessage` handler of `EnhancedWebSocketService`
(src/types/index.ts): a frame that parses is dispatched through
`handleMessageE`; a parse failure is caught and surfaced as exactly one
synthetic `error` event.  No connection field is touched either way. -/
def onmessageE (parsed : Option WSMessage) (s : RState) :
    RState × List (String × EmitArg) :=
  match parsed with
  | some m => (s, handleMessageE m)
  | none => (s, [("error", EmitArg.errText "Message parse error")])

/-- The outcome of invoking one subscriber callback: it either returns or
throws. -/
inductive CbRun
  | ok
  | throws : String → CbRun
deriving DecidableEq, Repr

/-- A registered subscriber callback, abstracted to an identity and its
behaviour when invoked. -/
structure Callback where
  id : Nat
  run : CbRun
deriving DecidableEq, Repr

/-- The per-event listener registry of `SimpleEventEmitter`
(src/types/index.ts). -/
abbrev Listeners := List (String × List Callback)

/-- `this.listeners[event]` lookup. -/
def getListeners (reg : Listeners) (event : String) : Option (List Callback) :=
  (reg.find? (fun p => p.1 = event)).map (fun p => p.2)

/-- The `forEach` body of `SimpleEventEmitter.emit`: invoke each callback
inside `try { callback(...args) } catch { console.error(...) }`, so a throw
is logged for that callback alone and iteration continues.  Returns the ids
invoked, in order, and the log entries produced by the catch branches. -/
def runCallbacks : List Callback → List Nat × List String
  | [] => ([], [])
  | c :: rest =>
      let caught : List String :=
        match c.run with
        | CbRun.ok => []
        | CbRun.throws msg => ["Error in event listener: " ++ msg]
      let r := runCallbacks rest
      (c.id :: r.1, caught ++ r.2)

/-- `SimpleEventEmitter.emit`: look up the listener list for the event and
run every callback through the guarded loop; no registered list means no
invocation. -/
def emitE (reg : Listeners) (event : String) : List Nat × List String :=
  match getListeners reg event with
  | some cbs => runCallbacks cbs
  | none => ([], [])

/-- One event-loop stimulus applied to the robust service: a public API
call, a socket callback, or a timer expiry. -/
inductive ROp
  | connectOp : List String → ROp
  | openEvt : String → ROp
  | messageEvt : Option WSMessage → ROp
  | errorEvt : ROp
  | closeEvt : Nat → ROp
  | timerEvt : Nat → ROp
  | disconnectOp : ROp
  | sendOp : Obj → String → ROp

/-- The step function of the robust service: dispatch one stimulus to the
corresponding operation. -/
def stepR : ROp → RState → RState × Trace
  | ROp.connectOp chs, s => connect chs s
  | ROp.openEvt now, s => onopenR now s
  | ROp.messageEvt m, s => onmessageR m s
  | ROp.errorEvt, s => onerrorR s
  | ROp.closeEvt code, s => oncloseR code s
  | ROp.timerEvt id, s => fireReconnectTimer id s
  | ROp.disconnectOp, s => disconnectR s
  | ROp.sendOp p now, s => (sendR p now s).1

/-- At most one reconnect timeout is pending, and when one is pending it is
the one the stored handle points at (so `clearReconnectTimer` can cancel it). -/
def atMostOneTimer (s : RState) : Prop :=
  s.activeTimers = [] ∨
  ∃ id d, s.activeTimers = [(id, d)] ∧ s.reconnectTimer = some id

/-- The constructor-set reconnect policy of `RobustWebSocketService`:
3000 ms base, factor 1.5, 30000 ms cap, 10 attempts. -/
def policyR (s : RState) : Prop :=
  s.reconnectInterval = 3000 ∧ s.reconnectDecay = 3 / 2 ∧
  s.maxReconnectInterval = 30000 ∧ s.maxReconnectAttempts = 10

/-- Folding a sequence of `connect` calls, counting sockets created. -/
def runConnects : List (List String) → RState → RState × Nat
  | [], s => (s, 0)
  | chs :: rest, s =>
      let r := connect chs s
      let r2 := runConnects rest r.1
      (r2.1, r.2.socketsCreated + r2.2)

/-- Fire whichever reconnect timeout is pending (there is at most one in
any reachable state); a no-op when none is. -/
def fireAllPending (s : RState) : RState :=
  match s.activeTimers with
  | [] => s
  | (id, _) :: _ => (fireReconnectTimer id s).1

/-- One failure cycle of the reconnect loop: the socket closes abnormally
(code 1006), then the scheduled reconnect timeout expires and the retry
connection attempt is issued. -/
def failStep (s : RState) : RState :=
  fireAllPending (oncloseR 1006 s).1

/-- `n` consecutive failure cycles. -/
def failRun : Nat → RState → RState
  | 0, s => s
  | n + 1, s => failRun n (failStep s)

/-- The invariant carried around the failure loop: policy constants in
place, `k` reconnect attempts consumed, reconnection enabled, and no
timeout pending (the previous one, if any, has fired). -/
def InvR (k : Nat) (s : RState) : Prop :=
  policyR s ∧ s.reconnectAttempts = k ∧ s.shouldReconnect = true ∧
  s.activeTimers = []

/-- A concrete open socket for witnesses. -/
def sockOpen : Sock :=
  ⟨"ws://localhost:8002/ws/airiss-client-1?channels=analysis,alerts",
    ReadyState.OPEN, []⟩

/-- A concrete closed socket for witnesses. -/
def sockClosed : Sock :=
  ⟨"ws://localhost:8002/ws/airiss-client-1?channels=analysis,alerts",
    ReadyState.CLOSED, []⟩

/-- A concrete robust-service state with the constructor defaults and no
socket. -/
def baseState : RState :=
  { ws := none, reconnectInterval := 3000, maxReconnectInterval := 30000,
    reconnectDecay := 3 / 2, reconnectAttempts := 0, maxReconnectAttempts := 10,
    reconnectTimer := none, activeTimers := [], nextTimerId := 0,
    pingTimer := false, url := "ws://localhost:8002/ws",
    clientId := "airiss-client-1", isConnecting := false,
    shouldReconnect := true, channels := ["analysis", "alerts"] }

/-- The robust service with an open connection. -/
def openState : RState := { baseState with ws := some sockOpen, pingTimer := true }

/-- The robust service just after an abnormal socket closure (reconnection
still enabled, no attempt in flight). -/
def closedState : RState := { baseState with ws := some sockClosed }

/-- Overriding a field makes it present with the new value. -/
theorem lookupField_setField_same (o : Obj) (k : String) (v : JVal) :
    lookupField (setField o k v) k = some v := by
  induction o with
  | nil => simp [setField, lookupField]
  | cons p rest ih =>
      obtain ⟨k1, v1⟩ := p
      by_cases h : k1 = k
      · subst h
        simp [setField, lookupField]
      · simp [setField, h, lookupField, ih]

/-- Overriding one field leaves every other field's value untouched. -/
theorem lookupField_setField_other (o : Obj) (k k2 : String) (v : JVal)
    (h : k2 ≠ k) : lookupField (setField o k v) k2 = lookupField o k2 := by
  have hne : ¬ k = k2 := fun hk => h hk.symm
  induction o with
  | nil => simp [setField, lookupField, hne]
  | cons p rest ih =>
      obtain ⟨k1, v1⟩ := p
      by_cases h1 : k1 = k
      · subst h1
        simp [setField, lookupField, hne]
      · by_cases h2 : k1 = k2
        · subst h2
          simp [setField, h1, lookupField]
        · simp [setField, h1, lookupField, h2, ih]

/-- Auxiliary: the invoked ids and catch-branch logs of the guarded
callback loop. -/
theorem runCallbacks_spec (cbs : List Callback) :
    (runCallbacks cbs).1 = cbs.map (fun c => c.id) ∧
    (runCallbacks cbs).2 = cbs.filterMap (fun c =>
      match c.run with
      | CbRun.ok => none
      | CbRun.throws m => some ("Error in event listener: " ++ m)) := by
  induction cbs with
  | nil => exact ⟨rfl, rfl⟩
  | cons c rest ih =>
      obtain ⟨h1, h2⟩ := ih
      cases hr : c.run with
      | ok => simp [runCallbacks, hr, h1, h2, List.filterMap_cons]
      | throws m => simp [runCallbacks, hr, h1, h2, List.filterMap_cons]

/-- C10: in `SimpleEventEmitter.emit`, every registered subscriber for the
event is invoked, in registration order, regardless of exceptions thrown by
earlier callbacks; each throwing callback is caught and produces exactly its
own log entry. -/
theorem C10_emit_isolated (reg : Listeners) (event : String)
    (cbs : List Callback) (h : getListeners reg event = some cbs) :
    (emitE reg event).1 = cbs.map (fun c => c.id) ∧
    (emitE reg event).2 = cbs.filterMap (fun c =>
      match c.run with
      | CbRun.ok => none
      | CbRun.throws m => some ("Error in event listener: " ++ m)) ∧
    ∀ c ∈ cbs, c.id ∈ (emitE reg event).1 := by
  have hs := runCallbacks_spec cbs
  refine ⟨?_, ?_, ?_⟩
  · simp [emitE, h, hs.1]
  · simp [emitE, h, hs.2]
  · intro c hc
    simp [emitE, h, hs.1]
    exact ⟨c, hc, rfl⟩

/-- C10 witness: a three-subscriber registry where the middle callback
throws; all three are invoked in order and the throw is logged once. -/
theorem C10_emit_isolated_witness :
    getListeners [("progress", [⟨1, CbRun.ok⟩, ⟨2, CbRun.throws "boom"⟩,
      ⟨3, CbRun.ok⟩])] "progress"
      = some [⟨1, CbRun.ok⟩, ⟨2, CbRun.throws "boom"⟩, ⟨3, CbRun.ok⟩] ∧
    (emitE [("progress", [⟨1, CbRun.ok⟩, ⟨2, CbRun.throws "boom"⟩,
      ⟨3, CbRun.ok⟩])] "progress").1 = [1, 2, 3] ∧
    (emitE [("progress", [⟨1, CbRun.ok⟩, ⟨2, CbRun.throws "boom"⟩,
      ⟨3, CbRun.ok⟩])] "progress").2 = ["Error in event listener: boom"] := by
  have h := C10_emit_isolated
    [("progress", [⟨1, CbRun.ok⟩, ⟨2, CbRun.throws "boom"⟩, ⟨3, CbRun.ok⟩])]
    "progress"
    [⟨1, CbRun.ok⟩, ⟨2, CbRun.throws "boom"⟩, ⟨3, CbRun.ok⟩] rfl
  exact ⟨rfl, h.1, h.2.1⟩

/-- C7 (amended): on an unparsable inbound frame, the enhanced service
dispatches exactly one synthetic `error` event while the robust service only
logs and dispatches nothing; neither changes the connection state, and in
both the failure is caught (handlers return normally). -/
theorem C7_parse_failure (s : RState) :
    onmessageE none s = (s, [("error", EmitArg.errText "Message parse error")]) ∧
    ((onmessageE none s).2.filter (fun e => e.1 = "error")).length = 1 ∧
    onmessageR none s = (s, Trace.empty) :=
  ⟨rfl, rfl, rfl⟩

/-- C7 counterexample: in `RobustWebSocketService`, an unparsable frame
dispatches zero events — not the one synthetic `error` event the claim
requires. -/
theorem C7_robust_no_error_event_cex :
    onmessageR none openState = (openState, Trace.empty) ∧
    (onmessageR none openState).2.emitted = [] :=
  ⟨rfl, rfl⟩

/-- C9 (amended): in `RobustWebSocketService.handleMessage`, every frame
whose `type` is not one of the recognized discriminators is forwarded, whole
message preserved, to the catch-all `message` event. -/
theorem C9_unknown_type_forwarded (m : WSMessage)
    (h : m.type ∉ (["progress", "result", "complete", "error", "alert",
      "notification", "connection_established", "ready", "pong"] :
      List String)) :
    handleMessageR m = [("message", EmitArg.msgOf m)] := by
  simp only [List.mem_cons, List.mem_singleton, not_or] at h
  obtain ⟨h1, h2, h3, h4, h5, h6, h7, h8, h9⟩ := h
  simp [handleMessageR, h1, h2, h3, h4, h5, h6, h7, h8, h9]

/-- C9 witness: a frame of type `status` is forwarded to `message` with its
payload intact. -/
theorem C9_unknown_type_forwarded_witness :
    (⟨"status", some (JVal.jnum 1), none, none, none⟩ : WSMessage).type ∉
      (["progress", "result", "complete", "error", "alert", "notification",
        "connection_established", "ready", "pong"] : List String) ∧
    handleMessageR ⟨"status", some (JVal.jnum 1), none, none, none⟩
      = [("message", EmitArg.msgOf ⟨"status", some (JVal.jnum 1), none, none,
          none⟩)] :=
  ⟨by decide, C9_unknown_type_forwarded
    ⟨"status", some (JVal.jnum 1), none, none, none⟩ (by decide)⟩

/-- C9 counterexample: in the fixed service, a frame with the unrecognized
type `status` is only logged — nothing is emitted, so it is not forwarded to
any catch-all `message` event. -/
theorem C9_fixed_drops_unknown_cex :
    ("status" : String) ∉ (["progress", "result", "complete", "error",
      "alert", "notification", "connection_established", "pong"] :
      List String) ∧
    handleMessageF ⟨"status", some (JVal.jnum 1), none, none, none⟩ = [] :=
  ⟨by decide, rfl⟩

/-- C8 (amended): a send while open succeeds and transmits exactly one
frame: the original payload with a manager timestamp and the client identity
set on top (these two manager-injected keys taking precedence over
same-named payload fields); every payload field name survives and every
field other than the two injected ones keeps its value.  The fixed service
injects the timestamp the same way but no client identity. -/
theorem C8_send_message_fields (p : Obj) (now : String) (s : RState)
    (h : wsOpen s = true) :
    (sendR p now s).2 = true ∧
    (sendR p now s).1.2.framesSent = [buildMessageRobust p now s.clientId] ∧
    lookupField (buildMessageRobust p now s.clientId) "timestamp"
      = some (JVal.jstr now) ∧
    lookupField (buildMessageRobust p now s.clientId) "client_id"
      = some (JVal.jstr s.clientId) ∧
    (∀ k, k ≠ "timestamp" → k ≠ "client_id" →
      lookupField (buildMessageRobust p now s.clientId) k = lookupField p k) ∧
    (∀ k, (lookupField p k).isSome = true →
      (lookupField (buildMessageRobust p now s.clientId) k).isSome = true) ∧
    lookupField (buildMessageFixed p now) "timestamp" = some (JVal.jstr now) := by
  have hts : lookupField (buildMessageRobust p now s.clientId) "timestamp"
      = some (JVal.jstr now) := by
    unfold buildMessageRobust
    rw [lookupField_setField_other _ _ _ _ (by decide),
      lookupField_setField_same]
  have hcid : lookupField (buildMessageRobust p now s.clientId) "client_id"
      = some (JVal.jstr s.clientId) := lookupField_setField_same _ _ _
  have hoth : ∀ k, k ≠ "timestamp" → k ≠ "client_id" →
      lookupField (buildMessageRobust p now s.clientId) k = lookupField p k := by
    intro k hk1 hk2
    unfold buildMessageRobust
    rw [lookupField_setField_other _ _ _ _ hk2,
      lookupField_setField_other _ _ _ _ hk1]
  refine ⟨?_, ?_, hts, hcid, hoth, ?_, ?_⟩
  · cases hws : s.ws with
    | none => simp [wsOpen, hws] at h
    | some w =>
        have hrs : w.readyState = ReadyState.OPEN := by
          simpa [wsOpen, hws] using h
        simp [sendR, hws, hrs]
  · cases hws : s.ws with
    | none => simp [wsOpen, hws] at h
    | some w =>
        have hrs : w.readyState = ReadyState.OPEN := by
          simpa [wsOpen, hws] using h
        simp [sendR, hws, hrs]
  · intro k hk
    by_cases h1 : k = "timestamp"
    · subst h1; simp [hts]
    · by_cases h2 : k = "client_id"
      · subst h2; simp [hcid]
      · rw [hoth k h1 h2]; exact hk
  · unfold buildMessageFixed
    exact lookupField_setField_same _ _ _

/-- C8 witness: sending a ping while open transmits the payload with the
injected timestamp and client identity. -/
theorem C8_send_message_fields_witness :
    wsOpen openState = true ∧
    (sendR [("type", JVal.jstr "ping")] "2025-06-01T00:00:00Z" openState).2
      = true ∧
    (sendR [("type", JVal.jstr "ping")] "2025-06-01T00:00:00Z"
      openState).1.2.framesSent
      = [buildMessageRobust [("type", JVal.jstr "ping")]
          "2025-06-01T00:00:00Z" openState.clientId] ∧
    lookupField (buildMessageRobust [("type", JVal.jstr "ping")]
      "2025-06-01T00:00:00Z" openState.clientId) "client_id"
      = some (JVal.jstr openState.clientId) := by
  have h := C8_send_message_fields [("type", JVal.jstr "ping")]
    "2025-06-01T00:00:00Z" openState rfl
  exact ⟨rfl, h.1, h.2.1, h.2.2.2.1⟩

/-- C8 counterexample: in the fixed service, a successful send transmits a
frame that carries no client identity at all, contradicting the claim that
every transmitted message includes the immutable client identity. -/
theorem C8_fixed_no_client_id_cex :
    (sendF [("type", JVal.jstr "ping")] "2025-06-01T00:00:00Z"
      { ws := some sockOpen, url := "ws://localhost:8002/ws",
        clientId := "react-client-1", isConnecting := false,
        maxRetryAttempts := 3, retryCount := 0 }).2 = true ∧
    (sendF [("type", JVal.jstr "ping")] "2025-06-01T00:00:00Z"
      { ws := some sockOpen, url := "ws://localhost:8002/ws",
        clientId := "react-client-1", isConnecting := false,
        maxRetryAttempts := 3, retryCount := 0 }).1.2
      = [[("type", JVal.jstr "ping"),
          ("timestamp", JVal.jstr "2025-06-01T00:00:00Z")]] ∧
    lookupField [("type", JVal.jstr "ping"),
      ("timestamp", JVal.jstr "2025-06-01T00:00:00Z")] "client_id" = none :=
  ⟨rfl, rfl, rfl⟩

/-- C2 (amended): for every payload and every state other than Open,
`send` returns false, writes no frame, and buffers nothing (the resulting
state does not depend on the payload); it returns true only when the state
is Open.  However, it is not a pure no-op: when reconnection is enabled and
no attempt is in flight, the failed send invokes `connect` with the stored
channels, which may replace the socket handle. -/
theorem C2_send_not_open (p : Obj) (now : String) (s : RState)
    (h : wsOpen s = false) :
    (sendR p now s).2 = false ∧
    (sendR p now s).1.2.framesSent = [] ∧
    (∀ q now2, (sendR p now s).1.1 = (sendR q now2 s).1.1) ∧
    (sendR p now s).1.1
      = (if s.shouldReconnect && !s.isConnecting then (connect s.channels s).1
         else s) ∧
    (∀ s2 : RState, (sendR p now s2).2 = true → wsOpen s2 = true) := by
  have hfail : sendR p now s = sendRFailPath s := by
    cases hws : s.ws with
    | none => simp [sendR, hws]
    | some w =>
        have hrs : w.readyState ≠ ReadyState.OPEN := by
          intro he
          simp [wsOpen, hws, he] at h
        simp [sendR, hws, hrs]
  have hgen : ∀ (q : Obj) (n2 : String), sendR q n2 s = sendRFailPath s := by
    intro q n2
    cases hws : s.ws with
    | none => simp [sendR, hws]
    | some w =>
        have hrs : w.readyState ≠ ReadyState.OPEN := by
          intro he
          simp [wsOpen, hws, he] at h
        simp [sendR, hws, hrs]
  refine ⟨?_, ?_, ?_, ?_, ?_⟩
  · rw [hfail]
    unfold sendRFailPath
    by_cases hc : s.shouldReconnect && !s.isConnecting <;> simp [hc]
  · rw [hfail]
    unfold sendRFailPath
    by_cases hc : s.shouldReconnect && !s.isConnecting
    · simp only [hc, if_pos]
      unfold connect
      by_cases h1 : s.isConnecting
      · simp [h1, Trace.empty]
      · by_cases h2 : wsOpen s <;> simp [h1, h2, Trace.empty]
    · simp [hc, Trace.empty]
  · intro q n2
    rw [hfail, hgen q n2]
  · rw [hfail]
    unfold sendRFailPath
    by_cases hc : s.shouldReconnect && !s.isConnecting <;> simp [hc]
  · intro s2 h2
    by_contra hno
    have hno2 : wsOpen s2 = false := by
      cases hval : wsOpen s2
      · rfl
      · exact absurd hval hno
    have hfail2 : sendR p now s2 = sendRFailPath s2 := by
      cases hws : s2.ws with
      | none => simp [sendR, hws]
      | some w =>
          have hrs : w.readyState ≠ ReadyState.OPEN := by
            intro he
            simp [wsOpen, hws, he] at hno2
          simp [sendR, hws, hrs]
    rw [hfail2] at h2
    unfold sendRFailPath at h2
    by_cases hc : s2.shouldReconnect && !s2.isConnecting <;> simp [hc] at h2

/-- C2 witness: a send on a state whose socket is closed. -/
theorem C2_send_not_open_witness :
    wsOpen closedState = false ∧
    (sendR [("type", JVal.jstr "ping")] "2025-06-01T00:00:00Z"
      closedState).2 = false ∧
    (sendR [("type", JVal.jstr "ping")] "2025-06-01T00:00:00Z"
      closedState).1.2.framesSent = [] := by
  have h := C2_send_not_open [("type", JVal.jstr "ping")]
    "2025-06-01T00:00:00Z" closedState rfl
  exact ⟨rfl, h.1, h.2.1⟩

/-- C2 counterexample: on a closed socket with reconnection enabled, a
failed send is not a no-op — it flips `isConnecting`, constructs a new
socket, and so changes the connection state and the socket handle. -/
theorem C2_send_reconnects_cex :
    wsOpen closedState = false ∧
    (sendR [("type", JVal.jstr "ping")] "T" closedState).2 = false ∧
    closedState.isConnecting = false ∧
    (sendR [("type", JVal.jstr "ping")] "T" closedState).1.1.isConnecting
      = true ∧
    (sendR [("type", JVal.jstr "ping")] "T" closedState).1.2.socketsCreated
      = 1 ∧
    (sendR [("type", JVal.jstr "ping")] "T" closedState).1.1.ws
      ≠ closedState.ws := by
  exact ⟨rfl, rfl, rfl, rfl, rfl, by decide⟩

/-- C3: a `connect` call issued while the service is already connecting or
the socket is already open is a pure no-op — no socket is constructed and no
field changes — and therefore any sequence of such calls constructs zero
sockets and leaves the state untouched. -/
theorem C3_connect_idempotent (s : RState)
    (h : s.isConnecting = true ∨ wsOpen s = true) :
    (∀ chs, connect chs s = (s, Trace.empty)) ∧
    (∀ calls, runConnects calls s = (s, 0)) := by
  have hone : ∀ chs, connect chs s = (s, Trace.empty) := by
    intro chs
    rcases h with h1 | h2
    · simp [connect, h1]
    · by_cases h1 : s.isConnecting
      · simp [connect, h1]
      · simp [connect, h1, h2]
  refine ⟨hone, ?_⟩
  intro calls
  induction calls with
  | nil => rfl
  | cons chs rest ih =>
      simp [runConnects, hone chs, ih, Trace.empty]

/-- C3 witness: redundant connects on an open connection are no-ops. -/
theorem C3_connect_idempotent_witness :
    (openState.isConnecting = true ∨ wsOpen openState = true) ∧
    connect ["analysis"] openState = (openState, Trace.empty) ∧
    runConnects [["analysis"], ["alerts"], []] openState = (openState, 0) := by
  have h := C3_connect_idempotent openState (Or.inr rfl)
  exact ⟨Or.inr rfl, h.1 ["analysis"], h.2 [["analysis"], ["alerts"], []]⟩

/-- `connect` never touches the reconnect timer bookkeeping. -/
theorem connect_timers (chs : List String) (s : RState) :
    (connect chs s).1.activeTimers = s.activeTimers ∧
    (connect chs s).1.reconnectTimer = s.reconnectTimer ∧
    (connect chs s).1.nextTimerId = s.nextTimerId := by
  unfold connect
  by_cases h1 : s.isConnecting
  · simp [h1]
  · by_cases h2 : wsOpen s <;> simp [h1, h2]

/-- `send` never touches the reconnect timer bookkeeping (its failure path
may call `connect`, which does not either). -/
theorem sendR_timers (p : Obj) (now : String) (s : RState) :
    (sendR p now s).1.1.activeTimers = s.activeTimers ∧
    (sendR p now s).1.1.reconnectTimer = s.reconnectTimer ∧
    (sendR p now s).1.1.nextTimerId = s.nextTimerId := by
  have hfp : (sendRFailPath s).1.1.activeTimers = s.activeTimers ∧
      (sendRFailPath s).1.1.reconnectTimer = s.reconnectTimer ∧
      (sendRFailPath s).1.1.nextTimerId = s.nextTimerId := by
    unfold sendRFailPath
    by_cases hc : s.shouldReconnect && !s.isConnecting
    · simp only [hc, if_pos]
      exact connect_timers s.channels s
    · simp [hc]
  unfold sendR
  cases hws : s.ws with
  | none => exact hfp
  | some w =>
      by_cases hrs : w.readyState = ReadyState.OPEN
      · simp [hrs]
      · simp only [hrs, if_neg, if_false]
        exact hfp

/-- After `clearReconnectTimer`, no timeout is pending and the handle is
reset — provided the state satisfied the one-pending-timer discipline. -/
theorem clear_of_atMostOne (s : RState) (h : atMostOneTimer s) :
    (clearReconnectTimer s).activeTimers = [] ∧
    (clearReconnectTimer s).reconnectTimer = none := by
  rcases h with hat | ⟨id, d, hat, hrt⟩
  · cases hrt : s.reconnectTimer <;> simp [clearReconnectTimer, hrt, hat]
  · simp [clearReconnectTimer, hrt, hat]

/-- `clearReconnectTimer` changes nothing besides the timer bookkeeping. -/
theorem clear_frame (s : RState) :
    (clearReconnectTimer s).ws = s.ws ∧
    (clearReconnectTimer s).reconnectInterval = s.reconnectInterval ∧
    (clearReconnectTimer s).maxReconnectInterval = s.maxReconnectInterval ∧
    (clearReconnectTimer s).reconnectDecay = s.reconnectDecay ∧
    (clearReconnectTimer s).reconnectAttempts = s.reconnectAttempts ∧
    (clearReconnectTimer s).maxReconnectAttempts = s.maxReconnectAttempts ∧
    (clearReconnectTimer s).nextTimerId = s.nextTimerId ∧
    (clearReconnectTimer s).shouldReconnect = s.shouldReconnect ∧
    (clearReconnectTimer s).isConnecting = s.isConnecting ∧
    (clearReconnectTimer s).channels = s.channels := by
  cases hrt : s.reconnectTimer <;> simp [clearReconnectTimer, hrt]

/-- `scheduleReconnect` below the attempt budget leaves exactly one pending
timeout: the fresh one, carrying the exponential-backoff delay. -/
theorem schedule_of_atMostOne (s : RState) (h : atMostOneTimer s)
    (hlt : s.reconnectAttempts < s.maxReconnectAttempts) :
    (scheduleReconnect s).1.activeTimers
      = [(s.nextTimerId, currentIntervalOf s)] ∧
    (scheduleReconnect s).1.reconnectTimer = some s.nextTimerId := by
  have hcl := clear_of_atMostOne s h
  have hfr := clear_frame s
  have hint : currentIntervalOf (clearReconnectTimer s) = currentIntervalOf s := by
    unfold currentIntervalOf
    rw [hfr.2.1, hfr.2.2.1, hfr.2.2.2.1, hfr.2.2.2.2.1]
  unfold scheduleReconnect
  simp only [Nat.not_le.mpr hlt, ge_iff_le, if_false]
  simp [hcl.1, hcl.2, hfr.2.2.2.2.2.2.1, hint]

/-- `scheduleReconnect` preserves the one-pending-timer discipline. -/
theorem schedule_atMostOne (s : RState) (h : atMostOneTimer s) :
    atMostOneTimer (scheduleReconnect s).1 := by
  by_cases hge : s.reconnectAttempts ≥ s.maxReconnectAttempts
  · unfold scheduleReconnect
    simp only [hge, if_pos]
    exact h
  · have hs := schedule_of_atMostOne s h (Nat.not_le.mp hge)
    exact Or.inr ⟨s.nextTimerId, currentIntervalOf s, hs.1, hs.2⟩

/-- C4: `disconnect` disables reconnection, cancels the pending reconnect
timeout and the heartbeat, requests exactly one normal (code 1000) closure
when a socket exists and none otherwise, is idempotent, and afterwards no
reconnect timer expiry whatsoever can do anything — in particular none can
construct a socket. -/
theorem disconnectR_state (ws : Option Sock) (ri mri rd : ℚ) (ra mra : Nat)
    (rt : Option Nat) (atm : List (Nat × ℚ)) (nid : Nat) (pt : Bool)
    (u cid : String) (ic sr : Bool) (ch : List String)
    (h : atMostOneTimer ⟨ws, ri, mri, rd, ra, mra, rt, atm, nid, pt, u, cid,
      ic, sr, ch⟩) :
    disconnectR ⟨ws, ri, mri, rd, ra, mra, rt, atm, nid, pt, u, cid, ic, sr,
      ch⟩
      = (⟨none, ri, mri, rd, 0, mra, none, [], nid, false, u, cid, false,
          false, ch⟩,
         if ws.isSome then { Trace.empty with closeCalls := [1000] }
         else Trace.empty) := by
  have hcl := clear_of_atMostOne
    ⟨ws, ri, mri, rd, ra, mra, rt, atm, nid, pt, u, cid, ic, false, ch⟩
    (by rcases h with h1 | ⟨id, d, h1, h2⟩
        · exact Or.inl h1
        · exact Or.inr ⟨id, d, h1, h2⟩)
  simp only at hcl
  unfold disconnectR
  cases hws : ws <;> cases hrt : rt <;>
    simp_all [clearReconnectTimer, Trace.empty] <;> exact hcl

/-- C4: `disconnect` disables reconnection, cancels the pending reconnect
timeout and the heartbeat, requests exactly one normal (code 1000) closure
when a socket exists and none otherwise, is idempotent, and afterwards no
reconnect timer expiry whatsoever can do anything — in particular none can
construct a socket. -/
theorem C4_disconnect_effective (s : RState) (h : atMostOneTimer s) :
    (disconnectR s).1.shouldReconnect = false ∧
    (disconnectR s).1.activeTimers = [] ∧
    (disconnectR s).1.reconnectTimer = none ∧
    (disconnectR s).1.pingTimer = false ∧
    ((disconnectR s).2.closeCalls = if s.ws.isSome then [1000] else []) ∧
    disconnectR (disconnectR s).1 = ((disconnectR s).1, Trace.empty) ∧
    (∀ id, fireReconnectTimer id (disconnectR s).1
      = ((disconnectR s).1, Trace.empty)) := by
  obtain ⟨ws, ri, mri, rd, ra, mra, rt, atm, nid, pt, u, cid, ic, sr, ch⟩ := s
  have hstate := disconnectR_state ws ri mri rd ra mra rt atm nid pt u cid
    ic sr ch h
  refine ⟨?_, ?_, ?_, ?_, ?_, ?_, ?_⟩
  · rw [hstate]
  · rw [hstate]
  · rw [hstate]
  · rw [hstate]
  · rw [hstate]
    cases ws <;> rfl
  · rw [hstate]
    rfl
  · intro id
    rw [hstate]
    rfl

/-- C4 witness: disconnecting an open connection. -/
theorem C4_disconnect_effective_witness :
    atMostOneTimer openState ∧
    (disconnectR openState).1.shouldReconnect = false ∧
    (disconnectR openState).1.activeTimers = [] ∧
    ((disconnectR openState).2.closeCalls
      = if openState.ws.isSome then [1000] else []) ∧
    disconnectR (disconnectR openState).1
      = ((disconnectR openState).1, Trace.empty) := by
  have h := C4_disconnect_effective openState (Or.inl rfl)
  exact ⟨Or.inl rfl, h.1, h.2.1, h.2.2.2.2.1, h.2.2.2.2.2.1⟩

/-- Transport of the one-pending-timer discipline along equal timer
bookkeeping. -/
theorem atMostOneTimer_congr (a b : RState)
    (h1 : a.activeTimers = b.activeTimers)
    (h2 : a.reconnectTimer = b.reconnectTimer) (h : atMostOneTimer b) :
    atMostOneTimer a := by
  unfold atMostOneTimer
  rw [h1, h2]
  exact h

/-- `connect` never touches the backoff policy fields or the attempt
counter, and keeps reconnection enabled when it was. -/
theorem connect_frame (chs : List String) (s : RState) :
    (connect chs s).1.reconnectAttempts = s.reconnectAttempts ∧
    (connect chs s).1.reconnectInterval = s.reconnectInterval ∧
    (connect chs s).1.maxReconnectInterval = s.maxReconnectInterval ∧
    (connect chs s).1.reconnectDecay = s.reconnectDecay ∧
    (connect chs s).1.maxReconnectAttempts = s.maxReconnectAttempts ∧
    (s.shouldReconnect = true → (connect chs s).1.shouldReconnect = true) := by
  unfold connect
  by_cases h1 : s.isConnecting
  · simp [h1]
  · by_cases h2 : wsOpen s <;> simp [h1, h2]

/-- `send` never touches the backoff policy fields or the attempt counter,
and keeps reconnection enabled when it was. -/
theorem sendR_frame (p : Obj) (now : String) (s : RState) :
    (sendR p now s).1.1.reconnectAttempts = s.reconnectAttempts ∧
    (sendR p now s).1.1.reconnectInterval = s.reconnectInterval ∧
    (sendR p now s).1.1.maxReconnectInterval = s.maxReconnectInterval ∧
    (sendR p now s).1.1.reconnectDecay = s.reconnectDecay ∧
    (sendR p now s).1.1.maxReconnectAttempts = s.maxReconnectAttempts ∧
    (s.shouldReconnect = true → (sendR p now s).1.1.shouldReconnect = true) := by
  have hfp : (sendRFailPath s).1.1.reconnectAttempts = s.reconnectAttempts ∧
      (sendRFailPath s).1.1.reconnectInterval = s.reconnectInterval ∧
      (sendRFailPath s).1.1.maxReconnectInterval = s.maxReconnectInterval ∧
      (sendRFailPath s).1.1.reconnectDecay = s.reconnectDecay ∧
      (sendRFailPath s).1.1.maxReconnectAttempts = s.maxReconnectAttempts ∧
      (s.shouldReconnect = true →
        (sendRFailPath s).1.1.shouldReconnect = true) := by
    unfold sendRFailPath
    by_cases hc : s.shouldReconnect && !s.isConnecting
    · simp only [hc, if_pos]
      exact connect_frame s.channels s
    · simp [hc]
  unfold sendR
  cases hws : s.ws with
  | none => exact hfp
  | some w =>
      by_cases hrs : w.readyState = ReadyState.OPEN
      · simp [hrs]
      · simp only [hrs, if_neg, if_false]
        exact hfp

/-- After the open handler: the attempt counter and interval are reset, no
timeout is pending, and the policy fields survive. -/
theorem onopenR_frame (now : String) (s : RState) (h : atMostOneTimer s) :
    (onopenR now s).1.activeTimers = [] ∧
    (onopenR now s).1.reconnectAttempts = 0 ∧
    (onopenR now s).1.reconnectInterval = 3000 ∧
    (onopenR now s).1.maxReconnectInterval = s.maxReconnectInterval ∧
    (onopenR now s).1.reconnectDecay = s.reconnectDecay ∧
    (onopenR now s).1.maxReconnectAttempts = s.maxReconnectAttempts ∧
    (onopenR now s).1.nextTimerId = s.nextTimerId ∧
    (s.shouldReconnect = true → (onopenR now s).1.shouldReconnect = true) := by
  unfold onopenR
  simp only
  set s2 : RState := { s with
    ws := s.ws.map (fun (w : Sock) => { w with readyState := ReadyState.OPEN }),
    isConnecting := false, reconnectAttempts := 0,
    reconnectInterval := 3000 } with hs2
  have h2 : atMostOneTimer s2 := by
    refine atMostOneTimer_congr s2 s rfl rfl h
  have hcl := clear_of_atMostOne s2 h2
  have hfr := clear_frame s2
  set s4 : RState := { clearReconnectTimer s2 with pingTimer := true } with hs4
  have hts := sendR_timers openingPing now s4
  have hfrs := sendR_frame openingPing now s4
  refine ⟨?_, ?_, ?_, ?_, ?_, ?_, ?_, ?_⟩
  · rw [hts.1]
    show (clearReconnectTimer s2).activeTimers = []
    exact hcl.1
  · rw [hfrs.1]
    show (clearReconnectTimer s2).reconnectAttempts = 0
    rw [hfr.2.2.2.2.1]
  · rw [hfrs.2.1]
    show (clearReconnectTimer s2).reconnectInterval = 3000
    rw [hfr.2.1]
  · rw [hfrs.2.2.1]
    show (clearReconnectTimer s2).maxReconnectInterval = s.maxReconnectInterval
    rw [hfr.2.2.1]
  · rw [hfrs.2.2.2.1]
    show (clearReconnectTimer s2).reconnectDecay = s.reconnectDecay
    rw [hfr.2.2.2.1]
  · rw [hfrs.2.2.2.2.1]
    show (clearReconnectTimer s2).maxReconnectAttempts = s.maxReconnectAttempts
    rw [hfr.2.2.2.2.2.1]
  · rw [hts.2.2]
    show (clearReconnectTimer s2).nextTimerId = s.nextTimerId
    rw [hfr.2.2.2.2.2.2.1]
  · intro hsr
    refine hfrs.2.2.2.2.2 ?_
    show (clearReconnectTimer s2).shouldReconnect = true
    rw [hfr.2.2.2.2.2.2.2.1]
    exact hsr

/-- An abnormal close with reconnection enabled and attempts remaining
schedules exactly the fresh backoff timer. -/
theorem oncloseR_abnormal_sched (s : RState) (code : Nat)
    (h : atMostOneTimer s) (hc : code ≠ 1000) (hsr : s.shouldReconnect = true)
    (hlt : s.reconnectAttempts < s.maxReconnectAttempts) :
    (oncloseR code s).1.activeTimers
      = [(s.nextTimerId, currentIntervalOf s)] ∧
    (oncloseR code s).1.reconnectTimer = some s.nextTimerId := by
  unfold oncloseR
  dsimp only
  split
  · exact schedule_of_atMostOne _ (atMostOneTimer_congr _ s rfl rfl h) hlt
  · next hcond =>
      refine absurd ?_ hcond
      show (s.shouldReconnect && decide (code ≠ 1000)) = true
      rw [hsr, decide_eq_true hc]
      rfl

/-- C5 (amended): a normal close (code 1000) never schedules a reconnect
(the timer bookkeeping is untouched); an abnormal close with reconnection
enabled and attempts remaining schedules exactly one fresh reconnect timer
(the schedule path clears any pending one first); and every operation of the
service preserves the at-most-one-pending-timer discipline. -/
theorem C5_close_scheduling (s : RState) (code : Nat) (h : atMostOneTimer s) :
    (code = 1000 → (oncloseR code s).1.activeTimers = s.activeTimers ∧
      (oncloseR code s).1.reconnectTimer = s.reconnectTimer) ∧
    (code ≠ 1000 → s.shouldReconnect = true →
      s.reconnectAttempts < s.maxReconnectAttempts →
      (oncloseR code s).1.activeTimers
        = [(s.nextTimerId, currentIntervalOf s)] ∧
      (oncloseR code s).1.reconnectTimer = some s.nextTimerId) ∧
    (∀ op : ROp, atMostOneTimer (stepR op s).1) := by
  refine ⟨?_, ?_, ?_⟩
  · intro hc
    subst hc
    have hfalse : ((closeState s).shouldReconnect
        && decide ((1000 : Nat) ≠ 1000)) = false := by simp
    simp only [oncloseR, hfalse, Bool.false_eq_true, if_false]
    exact ⟨rfl, rfl⟩
  · intro hc hsr hlt
    exact oncloseR_abnormal_sched s code h hc hsr hlt
  · intro op
    cases op with
    | connectOp chs =>
        have ht := connect_timers chs s
        exact atMostOneTimer_congr _ s ht.1 ht.2.1 h
    | openEvt now =>
        exact Or.inl (onopenR_frame now s h).1
    | messageEvt m =>
        cases m with
        | none => exact h
        | some m => exact h
    | errorEvt =>
        show atMostOneTimer (onerrorR s).1
        unfold onerrorR
        dsimp only
        split
        · exact schedule_atMostOne _ (atMostOneTimer_congr _ s rfl rfl h)
        · exact atMostOneTimer_congr _ s rfl rfl h
    | closeEvt c =>
        show atMostOneTimer (oncloseR c s).1
        unfold oncloseR
        dsimp only
        split
        · exact schedule_atMostOne _ (atMostOneTimer_congr _ s rfl rfl h)
        · exact atMostOneTimer_congr _ s rfl rfl h
    | timerEvt id =>
        show atMostOneTimer (fireReconnectTimer id s).1
        unfold fireReconnectTimer
        dsimp only
        split
        · next hmem =>
            have hfil : (s.activeTimers.filter (fun t => t.1 ≠ id)) = [] := by
              rcases h with hat | ⟨id0, d, hat, hrt⟩
              · rw [hat]
                rfl
              · rw [hat] at hmem
                rw [hat]
                simp at hmem
                subst hmem
                simp
            split
            · refine Or.inl ?_
              refine Eq.trans (connect_timers _ _).1 ?_
              exact hfil
            · exact Or.inl hfil
        · exact h
    | disconnectOp =>
        obtain ⟨ws, ri, mri, rd, ra, mra, rt, atm, nid, pt, u, cid, ic, sr,
          ch⟩ := s
        have hstate := disconnectR_state ws ri mri rd ra mra rt atm nid pt u
          cid ic sr ch h
        show atMostOneTimer (disconnectR _).1
        rw [hstate]
        exact Or.inl rfl
    | sendOp p now =>
        have ht := sendR_timers p now s
        exact atMostOneTimer_congr _ s ht.1 ht.2.1 h

/-- C5 witness: an abnormal close (1006) on the open state schedules exactly
one fresh timer; a normal close (1000) leaves the timer bookkeeping alone. -/
theorem C5_close_scheduling_witness :
    atMostOneTimer openState ∧
    (oncloseR 1006 openState).1.activeTimers
      = [(openState.nextTimerId, currentIntervalOf openState)] ∧
    (oncloseR 1000 openState).1.activeTimers = openState.activeTimers := by
  have h1 := C5_close_scheduling openState 1006 (Or.inl rfl)
  have h2 := C5_close_scheduling openState 1000 (Or.inl rfl)
  exact ⟨Or.inl rfl, (h1.2.1 (by decide) rfl (by decide)).1, (h2.1 rfl).1⟩

/-- The robust service right after `disconnect()` was called on an open
connection. -/
def afterDisc : RState := (disconnectR openState).1

/-- C5 counterexample: after `disconnect()`, a close event with abnormal
code 1006 and attempts remaining (0 of 10) schedules no reconnect timer at
all — the claim's "any other close code with attempts remaining always
schedules exactly one reconnect timer" fails because the handler also
requires `shouldReconnect`. -/
theorem C5_close_after_disconnect_cex :
    (1006 : Nat) ≠ 1000 ∧
    afterDisc.reconnectAttempts < afterDisc.maxReconnectAttempts ∧
    (oncloseR 1006 afterDisc).1.activeTimers = [] ∧
    (oncloseR 1006 afterDisc).2
      = Trace.ofEmit [("disconnected", EmitArg.closeInfo 1006)] := by
  refine ⟨by decide, by decide, rfl, rfl⟩

/-- `scheduleReconnect` changes nothing besides the timer bookkeeping. -/
theorem schedule_frame (s : RState) :
    (scheduleReconnect s).1.ws = s.ws ∧
    (scheduleReconnect s).1.shouldReconnect = s.shouldReconnect ∧
    (scheduleReconnect s).1.isConnecting = s.isConnecting ∧
    (scheduleReconnect s).1.channels = s.channels ∧
    (scheduleReconnect s).1.reconnectAttempts = s.reconnectAttempts ∧
    (scheduleReconnect s).1.reconnectInterval = s.reconnectInterval ∧
    (scheduleReconnect s).1.reconnectDecay = s.reconnectDecay ∧
    (scheduleReconnect s).1.maxReconnectInterval = s.maxReconnectInterval ∧
    (scheduleReconnect s).1.maxReconnectAttempts = s.maxReconnectAttempts := by
  unfold scheduleReconnect
  split
  · exact ⟨rfl, rfl, rfl, rfl, rfl, rfl, rfl, rfl, rfl⟩
  · dsimp only
    have hc := clear_frame s
    exact ⟨hc.1, hc.2.2.2.2.2.2.2.1, hc.2.2.2.2.2.2.2.2.1,
      hc.2.2.2.2.2.2.2.2.2, hc.2.2.2.2.1, hc.2.1, hc.2.2.2.1, hc.2.2.1,
      hc.2.2.2.2.2.1⟩

/-- The close handler closes the socket handle, clears `isConnecting`, and
leaves the channels, the policy fields, the attempt counter and the
reconnection flag alone. -/
theorem oncloseR_frame (code : Nat) (s : RState) :
    (oncloseR code s).1.ws
      = s.ws.map (fun (w : Sock) => { w with readyState := ReadyState.CLOSED }) ∧
    (oncloseR code s).1.shouldReconnect = s.shouldReconnect ∧
    (oncloseR code s).1.isConnecting = false ∧
    (oncloseR code s).1.channels = s.channels ∧
    (oncloseR code s).1.reconnectAttempts = s.reconnectAttempts ∧
    (oncloseR code s).1.reconnectInterval = s.reconnectInterval ∧
    (oncloseR code s).1.reconnectDecay = s.reconnectDecay ∧
    (oncloseR code s).1.maxReconnectInterval = s.maxReconnectInterval ∧
    (oncloseR code s).1.maxReconnectAttempts = s.maxReconnectAttempts := by
  unfold oncloseR
  dsimp only
  split
  · have hs := schedule_frame (closeState s)
    exact ⟨hs.1, hs.2.1, hs.2.2.1, hs.2.2.2.1, hs.2.2.2.2.1, hs.2.2.2.2.2.1,
      hs.2.2.2.2.2.2.1, hs.2.2.2.2.2.2.2.1, hs.2.2.2.2.2.2.2.2⟩
  · exact ⟨rfl, rfl, rfl, rfl, rfl, rfl, rfl, rfl, rfl⟩

/-- `scheduleReconnect` with the attempt budget exhausted only emits the
max-attempts event. -/
theorem schedule_max (s : RState)
    (hge : s.reconnectAttempts ≥ s.maxReconnectAttempts) :
    scheduleReconnect s
      = (s, Trace.ofEmit [("maxReconnectAttemptsReached", EmitArg.unit)]) := by
  unfold scheduleReconnect
  rw [if_pos hge]

/-- A close after the attempt budget is spent schedules nothing and emits
the distinct max-attempts event. -/
theorem oncloseR_max (s : RState) (h : InvR 10 s) :
    (oncloseR 1006 s).1.activeTimers = [] ∧
    (oncloseR 1006 s).2.emitted
      = [("disconnected", EmitArg.closeInfo 1006),
         ("maxReconnectAttemptsReached", EmitArg.unit)] := by
  obtain ⟨⟨hri, hrd, hmri, hmra⟩, hra, hsr, hat⟩ := h
  have hge : s.reconnectAttempts ≥ s.maxReconnectAttempts := by
    rw [hra, hmra]
  have hge2 : (closeState s).reconnectAttempts
      ≥ (closeState s).maxReconnectAttempts := hge
  unfold oncloseR
  dsimp only
  split
  · rw [schedule_max _ hge2]
    exact ⟨hat, rfl⟩
  · next hcond =>
      refine absurd ?_ hcond
      show (s.shouldReconnect && decide ((1006 : Nat) ≠ 1000)) = true
      rw [hsr]
      rfl

/-- One failure cycle from the invariant: the close schedules the delay
`min(3000 * 1.5^k, 30000)` and the subsequent timer expiry consumes one
attempt, re-establishing the invariant at `k + 1`. -/
theorem failStep_inv (k : Nat) (s : RState) (hk : k < 10) (h : InvR k s) :
    InvR (k + 1) (failStep s) ∧
    (oncloseR 1006 s).1.activeTimers
      = [(s.nextTimerId, min (3000 * (3 / 2 : ℚ) ^ k) 30000)] := by
  obtain ⟨⟨hri, hrd, hmri, hmra⟩, hra, hsr, hat⟩ := h
  have hlt : s.reconnectAttempts < s.maxReconnectAttempts := by
    rw [hra, hmra]
    omega
  have hsched := oncloseR_abnormal_sched s 1006 (Or.inl hat) (by norm_num) hsr
    hlt
  have hd : currentIntervalOf s = min (3000 * (3 / 2 : ℚ) ^ k) 30000 := by
    unfold currentIntervalOf
    rw [hri, hrd, hmri, hra]
  have hfr := oncloseR_frame 1006 s
  refine ⟨?_, by rw [hsched.1, hd]⟩
  unfold failStep fireAllPending
  rw [hsched.1]
  dsimp only
  unfold fireReconnectTimer
  dsimp only
  split
  · split
    · next hsr2 =>
        refine ⟨⟨?_, ?_, ?_, ?_⟩, ?_, ?_, ?_⟩
        · exact ((connect_frame _ _).2.1).trans (hfr.2.2.2.2.2.1.trans hri)
        · exact ((connect_frame _ _).2.2.2.1).trans
            (hfr.2.2.2.2.2.2.1.trans hrd)
        · exact ((connect_frame _ _).2.2.1).trans
            (hfr.2.2.2.2.2.2.2.1.trans hmri)
        · exact ((connect_frame _ _).2.2.2.2.1).trans
            (hfr.2.2.2.2.2.2.2.2.trans hmra)
        · rw [(connect_frame _ _).1]
          show (oncloseR 1006 s).1.reconnectAttempts + 1 = k + 1
          rw [hfr.2.2.2.2.1, hra]
        · exact (connect_frame _ _).2.2.2.2.2 (hfr.2.1.trans hsr)
        · refine ((connect_timers _ _).1).trans ?_
          show ((oncloseR 1006 s).1.activeTimers.filter
            (fun t => t.1 ≠ s.nextTimerId)) = []
          rw [hsched.1]
          simp
    · next hsr2 =>
        exact absurd (hfr.2.1.trans hsr) hsr2
  · next hmem =>
      rw [hsched.1] at hmem
      simp at hmem

/-- Running the failure loop preserves the invariant, one consumed attempt
per cycle. -/
theorem failRun_inv (n k : Nat) (s : RState) (hn : k + n ≤ 10)
    (h : InvR k s) : InvR (k + n) (failRun n s) := by
  induction n generalizing k s with
  | zero => simpa using h
  | succ m ih =>
      have hk : k < 10 := by omega
      have h1 := (failStep_inv k s hk h).1
      have h2 := ih (k + 1) (failStep s) (by omega) h1
      show InvR (k + (m + 1)) (failRun m (failStep s))
      have harith : k + 1 + m = k + (m + 1) := by omega
      rw [← harith]
      exact h2

/-- C1: starting from the constructor policy with a fresh attempt counter
and reconnection enabled, the Nth consecutive abnormal closure (N = 1..10)
schedules exactly the delay `min(3000 * 1.5^(N-1), 30000)`; once the ten
reconnect attempts have all failed, the next closure schedules no timer at
all and emits the distinct `maxReconnectAttemptsReached` event instead. -/
theorem C1_backoff_schedule (s : RState) (h : InvR 0 s) :
    (∀ N : Nat, 1 ≤ N → N ≤ 10 →
      (oncloseR 1006 (failRun (N - 1) s)).1.activeTimers
        = [((failRun (N - 1) s).nextTimerId,
            min (3000 * (3 / 2 : ℚ) ^ (N - 1)) 30000)]) ∧
    (oncloseR 1006 (failRun 10 s)).1.activeTimers = [] ∧
    (oncloseR 1006 (failRun 10 s)).2.emitted
      = [("disconnected", EmitArg.closeInfo 1006),
         ("maxReconnectAttemptsReached", EmitArg.unit)] := by
  have h10 : InvR 10 (failRun 10 s) := by
    have := failRun_inv 10 0 s (by omega) h
    simpa using this
  have hmax := oncloseR_max (failRun 10 s) h10
  refine ⟨?_, hmax.1, hmax.2⟩
  intro N h1 h2
  have hi : InvR (N - 1) (failRun (N - 1) s) := by
    have := failRun_inv (N - 1) 0 s (by omega) h
    simpa using this
  exact (failStep_inv (N - 1) (failRun (N - 1) s) (by omega) hi).2

/-- C1 witness: from the fresh closed-socket state, the first abnormal
close schedules the 3000 ms base delay. -/
theorem C1_backoff_schedule_witness :
    InvR 0 closedState ∧
    (oncloseR 1006 (failRun 0 closedState)).1.activeTimers
      = [((failRun 0 closedState).nextTimerId,
          min (3000 * (3 / 2 : ℚ) ^ 0) 30000)] ∧
    (oncloseR 1006 (failRun 10 closedState)).1.activeTimers = [] := by
  have h0 : InvR 0 closedState := ⟨⟨rfl, rfl, rfl, rfl⟩, rfl, rfl, rfl⟩
  have h := C1_backoff_schedule closedState h0
  exact ⟨h0, h.1 1 (by omega) (by omega), h.2.1⟩
